import Mathlib

/-!
Verification development for the sigmacoder identity service
(`pkg/auth/auth.go`, `pkg/auth/repo.go`, the auth service, the phone-OTP
routes and the JWT/bcrypt/mongo collaborator boundaries).

Conventions of the embedding:
* Go `error` values are modelled by the inductive `GoErr`; a Go
  `(T, error)` pair becomes `T × Option GoErr`, and a library call that
  either yields a value or an error becomes `Except GoErr T`.
* `time.Time` is modelled as a `Nat` of Unix seconds.  Within one request
  every `time.Now()` call is the single instant `Env.now` (the code calls
  `time.Now()` twice microseconds apart; `.Unix()` truncates to seconds).
* The MongoDB collection backing the `users` repo is modelled as a list of
  `User` documents plus fault switches for the driver: `decodeErr` makes
  `FindOne(...).Decode` fail even when a matching document exists, and
  `insertErr` makes `InsertOne` fail.  `FindOne` returns the first document
  matching the filter, or the driver's no-documents error.
* External libraries (bcrypt, golang-jwt, twilio) are collaborators, not
  repository code: each is a structure of function fields; the parts of
  their contracts a theorem relies on appear as explicit hypotheses.
-/

namespace Sigmacoder

/-- Go error values relevant to the auth domain.  Distinct constructors model
Go error values that compare unequal with `==`/`errors.Is`; in particular the
package sentinel `pkg.ErrUserNotFound` is a different value from the fresh
`errors.New("user not found with this email")` allocated in `ReadByUsernanme`
and from the fresh `errors.New("user with id already exists")` in `SignUp`. -/
inductive GoErr where
  /-- the package-level sentinel `pkg.ErrUserNotFound` -/
  | userNotFound : GoErr
  /-- `errors.New("user not found with this email")` from `ReadByUsernanme` -/
  | userNotFoundWithThisEmail : GoErr
  /-- `errors.New("user with id already exists")` from `SignUp` -/
  | userAlreadyExists : GoErr
  /-- `bcrypt.ErrMismatchedHashAndPassword` -/
  | mismatchedHashAndPassword : GoErr
  /-- bcrypt's error for a password longer than 72 bytes -/
  | passwordTooLong : GoErr
  /-- a mongo-driver failure (connectivity, decode, no documents, ...) -/
  | storeErr (msg : String) : GoErr
  /-- a JWT `SignedString` failure -/
  | signingErr (msg : String) : GoErr
  /-- a Twilio transport failure -/
  | adapterErr (msg : String) : GoErr
deriving DecidableEq, Repr

/-- `pkg/auth/auth.go` `User`: the persistent identity record.
`CreatedAt : time.Time` is Unix seconds. -/
structure User where
  ID          : String
  Name        : String
  Password    : String
  PhoneNumber : String
  ProfilePic  : String
  Email       : String
  Username    : String
  UserType    : String
  DateOfBirth : String
  Gender      : String
  CreatedAt   : Nat
deriving DecidableEq, Repr

/-- The Go zero value of `User` (`var user User`). -/
def User.zero : User :=
  { ID := "", Name := "", Password := "", PhoneNumber := "", ProfilePic := ""
    Email := "", Username := "", UserType := "", DateOfBirth := "", Gender := ""
    CreatedAt := 0 }

/-- `pkg/auth/auth.go` `InUser`: the registration input. -/
structure InUser where
  Name        : String
  Password    : String
  PhoneNumber : String
  ProfilePic  : String
  Email       : String
  Username    : String
  DateOfBirth : String
  Gender      : String
  UserType    : String
deriving DecidableEq, Repr

/-- `pkg/auth/auth.go` `OutUser`: the outward-facing user representation;
it has no password field. -/
structure OutUser where
  ID          : String
  Name        : String
  Email       : String
  PhoneNumber : String
  ProfilePic  : String
  UserType    : String
  Username    : String
  DateOfBirth : String
  Gender      : String
  CreatedAt   : Nat
deriving DecidableEq, Repr

/-- The `jwt.MapClaims` map built by the auth service: it always has exactly
the keys `userid`, `email` and `exp` (an expiration instant in Unix seconds). -/
structure MapClaims where
  userid : String
  email  : String
  exp    : Nat
deriving DecidableEq, Repr

/-- Model of `golang.org/x/crypto/bcrypt`: `digest` abstracts the salted
bcrypt computation for the process's randomness (the salt is drawn inside
`GenerateFromPassword`; a deterministic `digest` identifies a run of it). -/
structure BcryptLib where
  digest : String → String

/-- `bcrypt.GenerateFromPassword` with `bcrypt.MinCost`: the only failure of
the Go primitive at this cost is a password longer than 72 bytes. -/
def BcryptLib.generateFromPassword (lib : BcryptLib) (password : String) :
    Except GoErr String :=
  if password.utf8ByteSize > 72 then .error GoErr.passwordTooLong
  else .ok (lib.digest password)

/-- `bcrypt.CompareHashAndPassword hashedPassword password`: recomputes the
digest of `password` and compares it with the stored one; a password over 72
bytes errors before comparison, a digest mismatch yields
`ErrMismatchedHashAndPassword`. -/
def BcryptLib.compareHashAndPassword (lib : BcryptLib)
    (hashedPassword password : String) : Except GoErr Unit :=
  if password.utf8ByteSize > 72 then .error GoErr.passwordTooLong
  else if lib.digest password = hashedPassword then .ok ()
  else .error GoErr.mismatchedHashAndPassword

/-- Model of `github.com/golang-jwt/jwt/v4` as consumed here: `sign` is
`jwt.NewWithClaims(jwt.SigningMethodHS256, claims).SignedString(secret)`;
`parse` decodes a token string with a secret back into its claims. -/
structure JwtLib where
  sign  : MapClaims → String → Except GoErr String
  parse : String → String → Except GoErr MapClaims

/-- The JWT library contract the spec's round-trip property relies on: a
token signed with a secret parses, under the same secret, back to exactly
the claims that were signed. -/
def JwtLib.Roundtrip (jwt : JwtLib) : Prop :=
  ∀ c s tok, jwt.sign c s = .ok tok → jwt.parse tok s = .ok c

/-- The JWT library contract that a signed token string is never empty
(a compact JWS is always `header.payload.signature`). -/
def JwtLib.SignedNonEmpty (jwt : JwtLib) : Prop :=
  ∀ c s tok, jwt.sign c s = .ok tok → tok ≠ ""

/-- Per-request environment: the library collaborators, the value of
`uuid.New().String()`, the instant `time.Now()` returns, and
`os.Getenv("JWT_SECRET")`. -/
structure Env where
  bcrypt    : BcryptLib
  jwt       : JwtLib
  uuid      : String
  now       : Nat
  jwtSecret : String

/-- The mongo `users` collection plus driver fault switches. -/
structure Store where
  docs      : List User
  decodeErr : Option GoErr
  insertErr : Option GoErr
deriving DecidableEq, Repr

/-- Decidable equality of `Except` results, for closed evaluations. -/
instance {ε α : Type} [DecidableEq ε] [DecidableEq α] :
    DecidableEq (Except ε α) := fun x y =>
  match x, y with
  | .error e, .error f =>
    if h : e = f then .isTrue (by rw [h])
    else .isFalse (fun hc => h (Except.error.inj hc))
  | .error _, .ok _ => .isFalse (fun hc => Except.noConfusion hc)
  | .ok _, .error _ => .isFalse (fun hc => Except.noConfusion hc)
  | .ok a, .ok b =>
    if h : a = b then .isTrue (by rw [h])
    else .isFalse (fun hc => h (Except.ok.inj hc))

/-- `collection.FindOne(filter).Decode(&user)`: the first matching document,
the driver's no-documents error when none matches, or the decode fault. -/
def Store.findOne (st : Store) (p : User → Bool) : Except GoErr User :=
  match st.docs.find? p with
  | none => .error (GoErr.storeErr "mongo: no documents in result")
  | some u =>
    match st.decodeErr with
    | some e => .error e
    | none => .ok u

/-- `pkg/auth/auth.go` `hashPassword`: the bcrypt error is discarded with
`_`, so on failure the `nil` byte slice becomes the empty string. -/
def hashPassword (lib : BcryptLib) (password : String) : String :=
  match lib.generateFromPassword password with
  | .ok bytes => bytes
  | .error _ => ""

/-- `pkg/auth/auth.go` `(in *InUser) ToUser()`: fresh id, hashed password,
creation timestamp, remaining fields copied. -/
def InUser.ToUser (env : Env) (i : InUser) : User :=
  { ID          := env.uuid
    Name        := i.Name
    ProfilePic  := i.ProfilePic
    PhoneNumber := i.PhoneNumber
    Password    := hashPassword env.bcrypt i.Password
    Email       := i.Email
    UserType    := i.UserType
    Username    := i.Username
    DateOfBirth := i.DateOfBirth
    Gender      := i.Gender
    CreatedAt   := env.now }

/-- `pkg/auth/auth.go` `(u *User) ToOutUser()`. -/
def User.ToOutUser (u : User) : OutUser :=
  { ID          := u.ID
    Name        := u.Name
    ProfilePic  := u.ProfilePic
    PhoneNumber := u.PhoneNumber
    UserType    := u.UserType
    Email       := u.Email
    Username    := u.Username
    DateOfBirth := u.DateOfBirth
    Gender      := u.Gender
    CreatedAt   := u.CreatedAt }

/-- `pkg/auth/repo.go` `ReadByEmail`: any `FindOne`/`Decode` failure is
reported as the sentinel `pkg.ErrUserNotFound`, with the zero-valued `user`
variable. -/
def ReadByEmail (st : Store) (email : String) : User × Option GoErr :=
  match st.findOne (fun u => u.Email = email) with
  | .error _ => (User.zero, some GoErr.userNotFound)
  | .ok u => (u, none)

/-- `pkg/auth/repo.go` `ReadByPhoneNumber`: same shape as `ReadByEmail`,
keyed on `phonenumber`. -/
def ReadByPhoneNumber (st : Store) (phone : String) : User × Option GoErr :=
  match st.findOne (fun u => u.PhoneNumber = phone) with
  | .error _ => (User.zero, some GoErr.userNotFound)
  | .ok u => (u, none)

/-- `pkg/auth/repo.go` `ReadByUsernanme` (sic): any failure is reported as
the freshly allocated `errors.New("user not found with this email")`, not
the package sentinel. -/
def ReadByUsernanme (st : Store) (username : String) : User × Option GoErr :=
  match st.findOne (fun u => u.Username = username) with
  | .error _ => (User.zero, some GoErr.userNotFoundWithThisEmail)
  | .ok u => (u, none)

/-- `pkg/auth/repo.go` `Create`: convert with `ToUser`, `InsertOne` the
result; on insert failure the converted user and the error are returned and
the collection is unchanged. -/
def Create (env : Env) (st : Store) (i : InUser) :
    (User × Option GoErr) × Store :=
  let user := i.ToUser env
  match st.insertErr with
  | some e => ((user, some e), st)
  | none => ((user, none), { st with docs := st.docs ++ [user] })

/-- The 72-hour token validity window, in seconds
(`time.Now().Add(time.Hour * 72).Unix()`). -/
def tokenValiditySeconds : Nat := 72 * 3600

/-- The auth service `SignUp` (`Svc.SignUp`): existence check by email with
the `ErrUserNotFound`-is-proceed branch, the `user.Email == in.Email`
already-exists check, `Create`, then claims `{userid, email, exp}` signed
with HS256 under `JWT_SECRET`. -/
def SignUp (env : Env) (st : Store) (i : InUser) :
    (String × Option GoErr) × Store :=
  if ¬ ((ReadByEmail st i.Email).2 = some GoErr.userNotFound) ∧
      (ReadByEmail st i.Email).2 ≠ none then
    (("", (ReadByEmail st i.Email).2), st)
  else if (ReadByEmail st i.Email).1.Email = i.Email then
    (("", some GoErr.userAlreadyExists), st)
  else
    match Create env st i with
    | ((_, some e), st') => (("", some e), st')
    | ((created, none), st') =>
      match env.jwt.sign ⟨created.ID, created.Email,
          env.now + tokenValiditySeconds⟩ env.jwtSecret with
      | .error e => (("", some e), st')
      | .ok refresh => ((refresh, none), st')

/-- The auth service `Login` (`Svc.Login`): lookup by email, propagate any
lookup error unchanged, `bcrypt.CompareHashAndPassword` against the stored
digest, then sign the claims of the found user. -/
def Login (env : Env) (st : Store) (email password : String) :
    String × Option GoErr :=
  match ReadByEmail st email with
  | (_, some e) => ("", some e)
  | (user, none) =>
    match env.bcrypt.compareHashAndPassword user.Password password with
    | .error e => ("", some e)
    | .ok _ =>
      match env.jwt.sign ⟨user.ID, user.Email,
          env.now + tokenValiditySeconds⟩ env.jwtSecret with
      | .error e => ("", some e)
      | .ok refresh => (refresh, none)

/-- The auth service `LoginPhoneOtp` (`Svc.LoginPhoneOtp`): lookup by phone
number, propagate any lookup error, then sign the claims of the found user —
no OTP check happens inside the service. -/
def LoginPhoneOtp (env : Env) (st : Store) (phone : String) :
    String × Option GoErr :=
  match ReadByPhoneNumber st phone with
  | (_, some e) => ("", some e)
  | (user, none) =>
    match env.jwt.sign ⟨user.ID, user.Email,
        env.now + tokenValiditySeconds⟩ env.jwtSecret with
    | .error e => ("", some e)
    | .ok refresh => (refresh, none)

/-- Model of the Twilio Verify client as consumed by the OTP routes:
`createVerificationCheck phone code` is
`client.VerifyV2.CreateVerificationCheck`, yielding either a transport error
or the verification status string (`"approved"`, `"pending"`, ...). -/
structure TwilioLib where
  createVerificationCheck : String → String → Except GoErr String

/-- `api/routes` `twilioVerifyOTP`: returns the transport error if the check
call fails; otherwise it returns `nil` — both when the status is
`"approved"` and, through the trailing `return nil`, when it is not. -/
def twilioVerifyOTP (tw : TwilioLib) (phoneNumber code : String) :
    Option GoErr :=
  match tw.createVerificationCheck phoneNumber code with
  | .error e => some e
  | .ok status => if status = "approved" then none else none

/-- The observable outcome of the `verifySMS` handler: either an error
response or a 200 response carrying the token. -/
inductive HandlerResp where
  | errorResp (e : GoErr) : HandlerResp
  | okResp (token : String) : HandlerResp
deriving DecidableEq, Repr

/-- `api/routes` `verifySMS`: calls `LoginPhoneOtp` (which already issues
the token), surfaces its error if any, then calls `twilioVerifyOTP` and
surfaces its error if any; otherwise responds 200 with the token. -/
def verifySMS (env : Env) (st : Store) (tw : TwilioLib)
    (phone code : String) : HandlerResp :=
  match LoginPhoneOtp env st phone with
  | (_, some e) => HandlerResp.errorResp e
  | (token, none) =>
    match twilioVerifyOTP tw phone code with
    | some e => HandlerResp.errorResp e
    | none => HandlerResp.okResp token

/-! ### Concrete fixtures for closed evaluations -/

/-- A concrete bcrypt run for closed evaluations: the digest prefixes the
(MinCost) bcrypt header to the input.  It is never equal to its input
because it is strictly longer. -/
def mockBcrypt : BcryptLib := ⟨fun p => "$2a$04$" ++ p⟩

theorem mockBcrypt_digest_ne (p : String) : mockBcrypt.digest p ≠ p := by
  intro h
  have hlen := congrArg String.length h
  rw [show mockBcrypt.digest p = "$2a$04$" ++ p from rfl,
    String.length_append] at hlen
  have h7 : ("$2a$04$" : String).length = 7 := rfl
  omega

/-- Claims of the user a fixture `SignUp` creates. -/
def cA : MapClaims := ⟨"u-1", "a@x.com", 260200⟩

/-- Claims of the pre-stored fixture user `u1`. -/
def cB : MapClaims := ⟨"id9", "b@x.com", 260200⟩

/-- A concrete JWT library for closed evaluations: a two-entry signing
table.  It satisfies the round-trip and non-emptiness contracts. -/
def mockJwt : JwtLib where
  sign := fun c _ =>
    if c = cA then .ok "tok-a"
    else if c = cB then .ok "tok-b"
    else .error (GoErr.signingErr "no key")
  parse := fun tok _ =>
    if tok = "tok-a" then .ok cA
    else if tok = "tok-b" then .ok cB
    else .error (GoErr.signingErr "invalid token")

theorem mockJwt_roundtrip : mockJwt.Roundtrip := by
  intro c s tok h
  simp only [mockJwt] at h ⊢
  split at h
  · next hc => cases h; simp [hc]
  · split at h
    · next hc => cases h; simp [cA, cB, hc]
    · cases h

theorem mockJwt_signedNonEmpty : mockJwt.SignedNonEmpty := by
  intro c s tok h
  simp only [mockJwt] at h
  split at h
  · cases h; decide
  · split at h
    · cases h; decide
    · cases h

/-- A fixture user stored in the collection; its password digest is the
mock bcrypt digest of `"pw"`. -/
def u1 : User :=
  { ID := "id9", Name := "Bobby", Password := "$2a$04$pw"
    PhoneNumber := "+15550100", ProfilePic := "", Email := "b@x.com"
    Username := "bobby", UserType := "", DateOfBirth := "", Gender := ""
    CreatedAt := 5 }

/-- A fixture registration input with a fresh email. -/
def in0 : InUser :=
  { Name := "Al", Password := "pw0", PhoneNumber := "+15550101"
    ProfilePic := "", Email := "a@x.com", Username := "al"
    DateOfBirth := "", Gender := "", UserType := "" }

/-- A fixture registration input with an empty email. -/
def inE : InUser :=
  { Name := "Em", Password := "p", PhoneNumber := "", ProfilePic := ""
    Email := "", Username := "", DateOfBirth := "", Gender := ""
    UserType := "" }

/-- A 73-byte password: the one input class on which
`bcrypt.GenerateFromPassword` errors at `MinCost`. -/
def pw73 : String := String.mk (List.replicate 73 'a')

/-- A fixture registration input whose password makes bcrypt error. -/
def inLong : InUser := { in0 with Password := pw73 }

/-- The fixture request environment. -/
def env0 : Env :=
  { bcrypt := mockBcrypt, jwt := mockJwt, uuid := "u-1", now := 1000
    jwtSecret := "s" }

/-- The empty collection with a healthy driver. -/
def st0 : Store := { docs := [], decodeErr := none, insertErr := none }

/-- The collection holding `u1`, healthy driver. -/
def st1 : Store := { docs := [u1], decodeErr := none, insertErr := none }

/-- The collection holding `u1`, with a failing `Decode`. -/
def stFault : Store :=
  { docs := [u1], decodeErr := some (GoErr.storeErr "decode failure")
    insertErr := none }

/-- A Twilio run whose verification check completes without transport error
but reports the code as not approved. -/
def twPending : TwilioLib := ⟨fun _ _ => .ok "pending"⟩

/-! ### Inversion lemmas for successful service calls -/

/-- Inversion of a successful `SignUp`: the insert succeeded, the converted
user document was appended, and the returned token is the signature of the
created user's claims with expiration 72 hours after `now`. -/
theorem signUp_ok_inv (env : Env) (st : Store) (i : InUser) (tok : String)
    (st' : Store) (h : SignUp env st i = ((tok, none), st')) :
    st.insertErr = none ∧
    st' = { st with docs := st.docs ++ [i.ToUser env] } ∧
    env.jwt.sign ⟨(i.ToUser env).ID, (i.ToUser env).Email,
      env.now + tokenValiditySeconds⟩ env.jwtSecret = .ok tok := by
  unfold SignUp at h
  split at h
  · -- non-NotFound lookup error branch: contradicts the returned nil error
    rename_i hc
    simp only [Prod.mk.injEq] at h
    exact absurd h.1.2 hc.2
  · split at h
    · -- already-exists branch: returns an error, contradiction
      simp_all
    · -- create step
      split at h
      · -- insert errored: returns that error, contradiction
        simp_all
      · rename_i created st2 heq
        split at h
        · -- signing errored: returns that error, contradiction
          simp_all
        · rename_i refresh hs
          unfold Create at heq
          split at heq
          · simp_all
          · rename_i hins
            simp only [Prod.mk.injEq] at h heq
            obtain ⟨⟨hu, -⟩, hst2⟩ := heq
            obtain ⟨⟨htok, -⟩, hst'⟩ := h
            subst hu hst2 hst' htok
            exact ⟨hins, rfl, hs⟩

/-- Inversion of a successful `Login`: the email lookup succeeded, the
password matched the stored digest, and the token is the signature of the
found user's claims with expiration 72 hours after `now`. -/
theorem login_ok_inv (env : Env) (st : Store) (email password tok : String)
    (h : Login env st email password = (tok, none)) :
    ∃ u, ReadByEmail st email = (u, none) ∧
      env.bcrypt.compareHashAndPassword u.Password password = .ok () ∧
      env.jwt.sign ⟨u.ID, u.Email, env.now + tokenValiditySeconds⟩
        env.jwtSecret = .ok tok := by
  unfold Login at h
  split at h
  · simp_all
  · rename_i u hread
    split at h
    · simp_all
    · rename_i uu hcmp
      split at h
      · simp_all
      · rename_i refresh hs
        simp only [Prod.mk.injEq] at h
        obtain ⟨htok, -⟩ := h
        subst htok
        exact ⟨u, hread, hcmp, hs⟩

/-- Inversion of a successful `LoginPhoneOtp`: the phone lookup succeeded
and the token is the signature of the found user's claims with expiration
72 hours after `now`. -/
theorem loginPhoneOtp_ok_inv (env : Env) (st : Store) (phone tok : String)
    (h : LoginPhoneOtp env st phone = (tok, none)) :
    ∃ u, ReadByPhoneNumber st phone = (u, none) ∧
      env.jwt.sign ⟨u.ID, u.Email, env.now + tokenValiditySeconds⟩
        env.jwtSecret = .ok tok := by
  unfold LoginPhoneOtp at h
  split at h
  · simp_all
  · rename_i u hread
    split at h
    · simp_all
    · rename_i refresh hs
      simp only [Prod.mk.injEq] at h
      obtain ⟨htok, -⟩ := h
      subst htok
      exact ⟨u, hread, hs⟩

/-! ### The claims -/

/-- C9: `ToOutUser` produces a record with no password field (the `OutUser`
type carries none), and every field it does carry — ID, Name, Email,
PhoneNumber, ProfilePic, UserType, Username, DateOfBirth, Gender,
CreatedAt — equals the corresponding field of the input user. -/
theorem C9_ToOutUser_copies_all_fields_and_has_no_password (u : User) :
    u.ToOutUser.ID = u.ID ∧ u.ToOutUser.Name = u.Name ∧
    u.ToOutUser.Email = u.Email ∧ u.ToOutUser.PhoneNumber = u.PhoneNumber ∧
    u.ToOutUser.ProfilePic = u.ProfilePic ∧
    u.ToOutUser.UserType = u.UserType ∧
    u.ToOutUser.Username = u.Username ∧
    u.ToOutUser.DateOfBirth = u.DateOfBirth ∧
    u.ToOutUser.Gender = u.Gender ∧ u.ToOutUser.CreatedAt = u.CreatedAt :=
  ⟨rfl, rfl, rfl, rfl, rfl, rfl, rfl, rfl, rfl, rfl⟩

/-- C10: for every call to `SignUp`, `Login` or `LoginPhoneOtp`, under any
store, hashing and signing outcome, a non-nil returned error comes with an
empty token string — equivalently, a non-empty token is only returned with
a nil error. -/
theorem C10_error_implies_empty_token (env : Env) (st : Store) (i : InUser)
    (email password phone : String) :
    ((SignUp env st i).1.2 ≠ none → (SignUp env st i).1.1 = "") ∧
    ((Login env st email password).2 ≠ none →
      (Login env st email password).1 = "") ∧
    ((LoginPhoneOtp env st phone).2 ≠ none →
      (LoginPhoneOtp env st phone).1 = "") := by
  refine ⟨?_, ?_, ?_⟩
  · unfold SignUp
    split
    · exact fun _ => rfl
    · split
      · exact fun _ => rfl
      · split
        · exact fun _ => rfl
        · split
          · exact fun _ => rfl
          · exact fun hne => absurd rfl hne
  · unfold Login
    split
    · exact fun _ => rfl
    · split
      · exact fun _ => rfl
      · split
        · exact fun _ => rfl
        · exact fun hne => absurd rfl hne
  · unfold LoginPhoneOtp
    split
    · exact fun _ => rfl
    · split
      · exact fun _ => rfl
      · exact fun hne => absurd rfl hne

/-- C10 witness: three concrete failing calls — sign-up on the empty-email
input, login and OTP login against the empty store — return a non-nil
error, and the theorem yields the empty token for each. -/
theorem C10_error_implies_empty_token_witness :
    ((SignUp env0 st0 inE).1.2 ≠ none ∧ (SignUp env0 st0 inE).1.1 = "") ∧
    ((Login env0 st0 "a@x.com" "pw0").2 ≠ none ∧
      (Login env0 st0 "a@x.com" "pw0").1 = "") ∧
    ((LoginPhoneOtp env0 st0 "+15550100").2 ≠ none ∧
      (LoginPhoneOtp env0 st0 "+15550100").1 = "") :=
  ⟨⟨by decide,
    (C10_error_implies_empty_token env0 st0 inE "a@x.com" "pw0"
      "+15550100").1 (by decide)⟩,
   ⟨by decide,
    (C10_error_implies_empty_token env0 st0 inE "a@x.com" "pw0"
      "+15550100").2.1 (by decide)⟩,
   ⟨by decide,
    (C10_error_implies_empty_token env0 st0 inE "a@x.com" "pw0"
      "+15550100").2.2 (by decide)⟩⟩

/-- C1 (code bug): with a user stored for the phone number and a Twilio
verification check that completes without transport error but reports the
status `"pending"` — i.e. the code is not approved — the `verifySMS`
boundary still responds 200 with the already-issued, non-empty token,
because `twilioVerifyOTP` returns nil for every non-error status. -/
theorem C1_verifySMS_returns_token_despite_unapproved_code :
    twPending.createVerificationCheck "+15550100" "123456" = .ok "pending" ∧
    "pending" ≠ "approved" ∧
    verifySMS env0 st1 twPending "+15550100" "123456" =
      HandlerResp.okResp "tok-b" ∧
    "tok-b" ≠ "" := by decide

/-- C4 (code bug): on the empty store — so no stored user has an empty
email — `SignUp` of an input with an empty email does treat the lookup as
NotFound, but then compares the zero-valued user's empty email with the
input's empty email, matches, and spuriously fails with "user with id
already exists", creating nothing. -/
theorem C4_empty_email_signup_spuriously_reports_already_exists :
    (ReadByEmail st0 "").2 = some GoErr.userNotFound ∧
    SignUp env0 st0 inE = (("", some GoErr.userAlreadyExists), st0) ∧
    st0.docs = [] := by decide

/-- C2 (amended): every failure of a store lookup is collapsed to one fixed
error value — `ReadByEmail` and `ReadByPhoneNumber` report the sentinel
`ErrUserNotFound` for every failure, store/decode errors included, and
`ReadByUsernanme` reports a fresh non-sentinel error for every failure — so
"not found" is not distinguishable from other store failures. -/
theorem C2_lookup_failures_collapse_to_fixed_errors (st : Store)
    (key : String) :
    ((ReadByEmail st key).2 = none ∨
      (ReadByEmail st key).2 = some GoErr.userNotFound) ∧
    ((ReadByPhoneNumber st key).2 = none ∨
      (ReadByPhoneNumber st key).2 = some GoErr.userNotFound) ∧
    ((ReadByUsernanme st key).2 = none ∨
      (ReadByUsernanme st key).2 = some GoErr.userNotFoundWithThisEmail) ∧
    GoErr.userNotFoundWithThisEmail ≠ GoErr.userNotFound := by
  refine ⟨?_, ?_, ?_, by decide⟩
  · unfold ReadByEmail
    split
    · exact Or.inr rfl
    · exact Or.inl rfl
  · unfold ReadByPhoneNumber
    split
    · exact Or.inr rfl
    · exact Or.inl rfl
  · unfold ReadByUsernanme
    split
    · exact Or.inr rfl
    · exact Or.inl rfl

/-- C2 counterexample: a store/decode failure on a lookup whose key IS
present yields exactly the same observable outcome — the zero user and the
sentinel `ErrUserNotFound` — as the same lookup against the empty store, so
a caller branching on the error cannot tell "not found" from a store
failure. -/
theorem C2_store_failure_indistinguishable_from_notfound :
    u1 ∈ stFault.docs ∧ u1.Email = "b@x.com" ∧
    stFault.decodeErr = some (GoErr.storeErr "decode failure") ∧
    ReadByEmail stFault "b@x.com" = ReadByEmail st0 "b@x.com" ∧
    (ReadByEmail stFault "b@x.com").2 = some GoErr.userNotFound := by
  decide

/-- C3 counterexample: on a 73-byte password — the failure case of the
bcrypt primitive — the hashing primitive errors, yet SignUp (empty store)
neither aborts nor reports an error: it returns a non-empty token with a
nil error and creates a user record whose stored digest is the empty
string. -/
theorem C3_counterexample_hash_error_not_fatal :
    (∃ e, env0.bcrypt.generateFromPassword inLong.Password = .error e) ∧
    (SignUp env0 st0 inLong).1 = ("tok-a", none) ∧
    (SignUp env0 st0 inLong).2.docs.map User.Password = [""] :=
  ⟨⟨GoErr.passwordTooLong, by decide⟩, by decide, by decide⟩

/-- C3 (amended): a hashing-primitive error during the input-to-User
conversion is discarded, not surfaced: the converted user's password digest
is the empty string, and SignUp does not abort because of it — on the
concrete failing password over the empty store it succeeds, stores the user
with an empty digest, and issues a token. -/
theorem C3_hash_failure_is_swallowed :
    (∀ (env : Env) (i : InUser),
      (∃ e, env.bcrypt.generateFromPassword i.Password = .error e) →
        (i.ToUser env).Password = "") ∧
    env0.bcrypt.generateFromPassword pw73 = .error GoErr.passwordTooLong ∧
    SignUp env0 st0 inLong =
      (("tok-a", none),
        { docs := [inLong.ToUser env0], decodeErr := none
          insertErr := none }) ∧
    (inLong.ToUser env0).Password = "" := by
  refine ⟨?_, by decide, by decide, by decide⟩
  intro env i h
  obtain ⟨e, he⟩ := h
  simp [InUser.ToUser, hashPassword, he]

/-- C3 witness: the hypothesis of the universal part holds at the concrete
73-byte-password input, and the theorem yields the empty stored digest. -/
theorem C3_hash_failure_is_swallowed_witness :
    (∃ e, env0.bcrypt.generateFromPassword inLong.Password = .error e) ∧
    (inLong.ToUser env0).Password = "" :=
  ⟨⟨GoErr.passwordTooLong, by decide⟩,
   C3_hash_failure_is_swallowed.1 env0 inLong
     ⟨GoErr.passwordTooLong, by decide⟩⟩

/-- C5: whenever a user with the input's email is already present in the
store and the lookup completes normally, SignUp fails with the
already-exists error, issues no token (empty token string), and returns the
store unchanged — in particular the existing stored record is unchanged. -/
theorem C5_signup_existing_email_fails_already_exists (env : Env)
    (st : Store) (i : InUser) (u : User)
    (hfind : st.docs.find? (fun v => v.Email = i.Email) = some u)
    (hdec : st.decodeErr = none) :
    SignUp env st i = (("", some GoErr.userAlreadyExists), st) := by
  have hmail : u.Email = i.Email := by
    have := List.find?_some hfind
    simpa using this
  have hread : ReadByEmail st i.Email = (u, none) := by
    unfold ReadByEmail Store.findOne
    rw [hfind, hdec]
  unfold SignUp
  rw [hread]
  simp [hmail]

/-- C5 witness: registering the fixture input whose email equals the stored
user's email fails with the already-exists error and leaves the store as it
was. -/
theorem C5_signup_existing_email_fails_already_exists_witness :
    st1.docs.find? (fun v => v.Email = "b@x.com") = some u1 ∧
    SignUp env0 st1 { in0 with Email := "b@x.com" } =
      (("", some GoErr.userAlreadyExists), st1) :=
  ⟨by decide,
   C5_signup_existing_email_fails_already_exists env0 st1
     { in0 with Email := "b@x.com" } u1 (by decide) (by decide)⟩

/-- C6: when the email resolves to a stored user (the lookup completes
normally) and the submitted password — within bcrypt's 72-byte limit — has
a digest different from the stored one, Login fails with bcrypt's
mismatched-hash error (the InvalidCredentials signal) and the returned
token is the empty string. -/
theorem C6_login_password_mismatch_fails_no_token (env : Env) (st : Store)
    (email password : String) (u : User)
    (hfind : st.docs.find? (fun v => v.Email = email) = some u)
    (hdec : st.decodeErr = none)
    (hlen : password.utf8ByteSize ≤ 72)
    (hmis : env.bcrypt.digest password ≠ u.Password) :
    Login env st email password =
      ("", some GoErr.mismatchedHashAndPassword) := by
  have hread : ReadByEmail st email = (u, none) := by
    unfold ReadByEmail Store.findOne
    rw [hfind, hdec]
  unfold Login
  rw [hread]
  simp [BcryptLib.compareHashAndPassword, Nat.not_lt.mpr hlen, hmis]

/-- C6 witness: logging in as the stored fixture user with a wrong password
fails with the mismatched-hash error and an empty token. -/
theorem C6_login_password_mismatch_fails_no_token_witness :
    st1.docs.find? (fun v => v.Email = "b@x.com") = some u1 ∧
    env0.bcrypt.digest "wrong" ≠ u1.Password ∧
    Login env0 st1 "b@x.com" "wrong" =
      ("", some GoErr.mismatchedHashAndPassword) :=
  ⟨by decide, by decide,
   C6_login_password_mismatch_fails_no_token env0 st1 "b@x.com" "wrong" u1
     (by decide) (by decide) (by decide) (by decide)⟩

/-- C7: under the JWT library's round-trip contract, every token
successfully issued by SignUp, Login or LoginPhoneOtp for a user with id S
and email E decodes, under the correct signing secret, to claims whose
userid is S, whose email is E, and whose expiration is exactly 72 hours
(259200 seconds) after the issuance instant. -/
theorem C7_issued_token_decodes_to_subject_email_72h (env : Env)
    (st : Store) (i : InUser) (email password phone tok : String)
    (st' : Store) (u : User) (hrt : env.jwt.Roundtrip) :
    (SignUp env st i = ((tok, none), st') →
      env.jwt.parse tok env.jwtSecret =
        .ok ⟨(i.ToUser env).ID, (i.ToUser env).Email,
          env.now + tokenValiditySeconds⟩) ∧
    (ReadByEmail st email = (u, none) →
      Login env st email password = (tok, none) →
      env.jwt.parse tok env.jwtSecret =
        .ok ⟨u.ID, u.Email, env.now + tokenValiditySeconds⟩) ∧
    (ReadByPhoneNumber st phone = (u, none) →
      LoginPhoneOtp env st phone = (tok, none) →
      env.jwt.parse tok env.jwtSecret =
        .ok ⟨u.ID, u.Email, env.now + tokenValiditySeconds⟩) := by
  refine ⟨?_, ?_, ?_⟩
  · intro h
    obtain ⟨-, -, hs⟩ := signUp_ok_inv env st i tok st' h
    exact hrt _ _ _ hs
  · intro hread h
    obtain ⟨v, hv, -, hs⟩ := login_ok_inv env st email password tok h
    rw [hread] at hv
    injection hv with hv1 hv2
    subst hv1
    exact hrt _ _ _ hs
  · intro hread h
    obtain ⟨v, hv, hs⟩ := loginPhoneOtp_ok_inv env st phone tok h
    rw [hread] at hv
    injection hv with hv1 hv2
    subst hv1
    exact hrt _ _ _ hs

/-- C7 witness: a concrete sign-up over the empty store and concrete
password/OTP logins against the stored fixture user; the issued fixture
tokens decode to the expected subject, email and 72-hour expiration. -/
theorem C7_issued_token_decodes_to_subject_email_72h_witness :
    env0.jwt.parse "tok-a" env0.jwtSecret =
      .ok ⟨(in0.ToUser env0).ID, (in0.ToUser env0).Email,
        env0.now + tokenValiditySeconds⟩ ∧
    env0.jwt.parse "tok-b" env0.jwtSecret =
      .ok ⟨u1.ID, u1.Email, env0.now + tokenValiditySeconds⟩ :=
  ⟨(C7_issued_token_decodes_to_subject_email_72h env0 st0 in0 "" "" ""
      "tok-a"
      { docs := [in0.ToUser env0], decodeErr := none, insertErr := none }
      User.zero mockJwt_roundtrip).1 (by decide),
   (C7_issued_token_decodes_to_subject_email_72h env0 st1 in0 "b@x.com"
      "pw" "+15550100" "tok-b" st1 u1 mockJwt_roundtrip).2.1 (by decide)
      (by decide)⟩

/-- C8: for every registration input with a (non-empty) email not present
in the store, given a healthy store, a signing step that succeeds, the JWT
contract that signed tokens are non-empty, and the bcrypt contract that a
digest never equals its input, SignUp succeeds with a non-empty token and a
subsequent lookup by that email returns the created user, whose stored
password field is not the submitted plaintext. -/
theorem C8_signup_fresh_email_succeeds_and_never_stores_plaintext
    (env : Env) (st : Store) (i : InUser)
    (hmail : i.Email ≠ "")
    (hfresh : st.docs.find? (fun v => v.Email = i.Email) = none)
    (hdec : st.decodeErr = none)
    (hins : st.insertErr = none)
    (hne : env.jwt.SignedNonEmpty)
    (hsig : ∃ tok, env.jwt.sign ⟨(i.ToUser env).ID, (i.ToUser env).Email,
      env.now + tokenValiditySeconds⟩ env.jwtSecret = .ok tok)
    (hdig : ∀ p, p.utf8ByteSize ≤ 72 → env.bcrypt.digest p ≠ p) :
    ∃ tok st', SignUp env st i = ((tok, none), st') ∧ tok ≠ "" ∧
      ReadByEmail st' i.Email = (i.ToUser env, none) ∧
      (i.ToUser env).Password ≠ i.Password := by
  obtain ⟨tok, hs⟩ := hsig
  have hread : ReadByEmail st i.Email =
      (User.zero, some GoErr.userNotFound) := by
    unfold ReadByEmail Store.findOne
    rw [hfresh]
  have hmail2 : User.zero.Email ≠ i.Email := by
    simp only [User.zero]
    exact fun hc => hmail hc.symm
  have hsignup : SignUp env st i =
      ((tok, none), { st with docs := st.docs ++ [i.ToUser env] }) := by
    unfold SignUp
    rw [hread]
    simp [hmail2, Create, hins, hs]
  have hafter : ReadByEmail { st with docs := st.docs ++ [i.ToUser env] }
      i.Email = (i.ToUser env, none) := by
    unfold ReadByEmail Store.findOne
    rw [List.find?_append, hfresh]
    simp [hdec, InUser.ToUser]
  have hpw : (i.ToUser env).Password ≠ i.Password := by
    simp only [InUser.ToUser]
    unfold hashPassword BcryptLib.generateFromPassword
    by_cases hl : i.Password.utf8ByteSize > 72
    · simp only [hl, if_pos]
      intro hc
      rw [← hc] at hl
      exact absurd hl (by decide)
    · simp only [hl, if_neg, not_false_iff]
      exact hdig _ (Nat.not_lt.mp hl)
  exact ⟨tok, _, hsignup, hne _ _ _ hs, hafter, hpw⟩

/-- C8 witness: registering the concrete fixture input over the empty store
succeeds with a non-empty token, and the stored record's password field is
the digest, not the plaintext. -/
theorem C8_signup_fresh_email_succeeds_witness :
    ∃ tok st', SignUp env0 st0 in0 = ((tok, none), st') ∧ tok ≠ "" ∧
      ReadByEmail st' in0.Email = (in0.ToUser env0, none) ∧
      (in0.ToUser env0).Password ≠ in0.Password :=
  C8_signup_fresh_email_succeeds_and_never_stores_plaintext env0 st0 in0
    (by decide) rfl rfl rfl mockJwt_signedNonEmpty ⟨"tok-a", by decide⟩
    (fun p _ => mockBcrypt_digest_ne p)

end Sigmacoder
